import Mathlib

/-!
Shallow embedding of the account pool orchestration and health-safety
engine of this repository (`sales_bot`): the `Account` data model and its
availability check (`db/models.py`), the pool orchestrator
(`accounts/manager.py`: `AccountManager`), and the health monitor
(`accounts/monitoring.py`: `AccountMonitor`).

The Account Store and the Remote Session are external collaborators; the
store is embedded as explicit state (`Store`) and every outcome of a
remote call (connect result, probe result, raised exception class) is a
parameter of the embedded operation, so each theorem quantifies over all
behaviours of the externals.  Exceptions of the remote calls are embedded
as explicit `CallResult.exn` outcomes; the Python code catches them with
blanket `except Exception` handlers, and the embedding maps each such
path to the value the handler returns.
-/

namespace SalesBot

/-- Account status enum (`db/models.py`, `AccountStatus`): the three
lifecycle states `active`, `disabled`, `blocked`. -/
inductive AccountStatus where
  | active
  | disabled
  | blocked
deriving DecidableEq, Repr

/-- Account record (`db/models.py`, `Account`): the fields of the model
that the orchestration core reads or writes.  Timestamps are omitted:
no claim mentions them. -/
structure Account where
  id : Nat
  phone : String
  session_string : Option String
  status : AccountStatus
  daily_messages : Nat

/-- Availability check (`db/models.py`, `Account.is_available`): the
account's status is `ACTIVE` and its daily message counter is strictly
below the configured cap (`config.MAX_DAILY_MESSAGES`, passed here as the
parameter `maxDailyMessages`). -/
def is_available (maxDailyMessages : Nat) (a : Account) : Bool :=
  decide (a.status = AccountStatus.active) &&
    decide (a.daily_messages < maxDailyMessages)

/-- Modelled from the spec: `db/queries.py` (`AccountQueries`) is not under
`src/`; per the spec the Account Store is an external collaborator exposing
create/read/update-by-id operations.  The store state maps an account id
to its status (`none` when no such record exists), its daily message
counter, and its persisted session credential. -/
structure Store where
  status : Nat → Option AccountStatus
  daily : Nat → Nat
  sessions : Nat → Option String

/-- Modelled from the spec: store write `updateStatus(id, status)`
(`AccountQueries.update_account_status_by_id`, not under `src/`) — sets the
status of one record, leaving every other field and record unchanged. -/
def setStatus (st : Store) (aid : Nat) (v : AccountStatus) : Store :=
  { st with status := fun i => if i = aid then some v else st.status i }

/-- Modelled from the spec: store write `incrementMessageCount(id)`
(`AccountQueries.increment_messages`, not under `src/`) — an atomic
increment of one record's daily counter. -/
def incrementDaily (st : Store) (aid : Nat) : Store :=
  { st with daily := fun i => if i = aid then st.daily i + 1 else st.daily i }

/-- Modelled from the spec: store write `createAccount(phone)`
(`AccountQueries.create_account`, not under `src/`) — per the spec a
record is created on enrollment with status `active`, counters zero and
no session credential yet. -/
def createRecord (st : Store) (aid : Nat) : Store :=
  { status := fun i => if i = aid then some AccountStatus.active else st.status i,
    daily := fun i => if i = aid then 0 else st.daily i,
    sessions := fun i => if i = aid then none else st.sessions i }

/-- Outcome of one embedded remote call: the call returned `a`, or it
raised an exception (of the kind the surrounding `except Exception`
handler catches). -/
inductive CallResult (α : Type) where
  | exn
  | ok (a : α)
deriving DecidableEq

/-! ## Health monitor (`accounts/monitoring.py`, `AccountMonitor`) -/

/-- Monitor state: the store plus the in-memory `_error_counts` map
(account id → consecutive error count; an absent key and a count of zero
are indistinguishable to the code, which reads with `.get(id, 0)` and
removes with `.pop(id, None)`, so the map is embedded as a total
function with default 0). -/
structure MonitorState where
  store : Store
  errCounts : Nat → Nat

/-- The `_error_counts.pop(account_id, None)` operation: the count for
one id becomes absent (0). -/
def popErr (e : Nat → Nat) (aid : Nat) : Nat → Nat :=
  fun i => if i = aid then 0 else e i

/-- Outcome of one `check_account` probe against the Remote Session:
`connect()` returned `False`; `get_me()` returned a falsy value;
the probe succeeded; a recognized terminal exception was raised
(`UserDeactivated`, `SessionRevoked`, `AuthKeyUnregistered`,
`UserDeactivatedBan`); or any other exception was raised. -/
inductive CheckOutcome where
  | connectFalse
  | probeNone
  | success
  | terminal
  | transient
deriving DecidableEq

/-- `AccountMonitor._mark_account_blocked`: re-reads the account by id;
if it exists, writes status `BLOCKED`; the error count for the id is
popped whether or not the record exists (the pop sits outside the
`if account:` guard in the source). -/
def mark_account_blocked (s : MonitorState) (aid : Nat) : MonitorState :=
  let store' :=
    match s.store.status aid with
    | some _ => setStatus s.store aid AccountStatus.blocked
    | none => s.store
  { store := store', errCounts := popErr s.errCounts aid }

/-- `AccountMonitor._mark_account_disabled`: re-reads the account by id;
only if it exists, writes status `DISABLED` and pops the error count
(both sit inside the `if account:` guard in the source). -/
def mark_account_disabled (s : MonitorState) (aid : Nat) : MonitorState :=
  match s.store.status aid with
  | some _ =>
      { store := setStatus s.store aid AccountStatus.disabled,
        errCounts := popErr s.errCounts aid }
  | none => s

/-- `AccountMonitor.check_account`: connect and probe the account with a
fresh client.  A falsy connect or probe result returns `False` with no
state change; success pops the error count and returns `True`; a
terminal exception marks the account blocked; any other exception
increments the error count and, when the count reaches 3, marks the
account disabled.  Every path returns `False` except success. -/
def check_account (s : MonitorState) (aid : Nat) (out : CheckOutcome) :
    MonitorState × Bool :=
  match out with
  | CheckOutcome.connectFalse => (s, false)
  | CheckOutcome.probeNone => (s, false)
  | CheckOutcome.success =>
      ({ s with errCounts := popErr s.errCounts aid }, true)
  | CheckOutcome.terminal => (mark_account_blocked s aid, false)
  | CheckOutcome.transient =>
      let c := s.errCounts aid + 1
      let s1 : MonitorState :=
        { s with errCounts := fun i => if i = aid then c else s.errCounts i }
      if 3 ≤ c then (mark_account_disabled s1 aid, false) else (s1, false)

/-- Tally returned by one sweep (`check_all_accounts`'s `stats` dict). -/
structure Stats where
  total : Nat
  active : Nat
  disabled : Nat
  blocked : Nat
deriving DecidableEq, Repr

/-- Modelled from the spec: the tally branch `account.status ==
AccountStatus.BLOCKED` reads the record through the session-bound
`AccountQueries` (`db/queries.py`, not under `src/`); per the spec the
sweep "tallies outcomes by re-reading resulting status", so the read
returns the record's current status in the store. -/
def status_reread (st : Store) (aid : Nat) : Option AccountStatus :=
  st.status aid

/-- One iteration of the sweep loop in
`AccountMonitor.check_all_accounts`: run `check_account`; on `True` count
the account as active, else count it as blocked when its (re-read)
status is `BLOCKED`, else as disabled. -/
def sweep_step (f : Nat → CheckOutcome) (p : MonitorState × Stats)
    (aid : Nat) : MonitorState × Stats :=
  let r := check_account p.1 aid (f aid)
  if r.2 then
    (r.1, { p.2 with active := p.2.active + 1 })
  else if status_reread r.1.store aid = some AccountStatus.blocked then
    (r.1, { p.2 with blocked := p.2.blocked + 1 })
  else
    (r.1, { p.2 with disabled := p.2.disabled + 1 })

/-- `AccountMonitor.check_all_accounts`: read the active accounts
(`accounts` is the list of ids returned by that sweep-start read), set
`total` to its length, then run the loop; `f` gives each account's probe
outcome. -/
def check_all_accounts (s : MonitorState) (accounts : List Nat)
    (f : Nat → CheckOutcome) : MonitorState × Stats :=
  accounts.foldl (sweep_step f)
    (s, { total := accounts.length, active := 0, disabled := 0, blocked := 0 })

/-! ## Pool orchestrator (`accounts/manager.py`, `AccountManager`) -/

/-- Environment of one `AccountManager.send_message` call: whether a
client for the account id is already cached in `_active_clients`, the
outcome of `client.connect()` when a new client is needed, the verdict of
`safety.can_send_message(account)`, and the outcome of
`client.send_message(username, text)`. -/
structure SendEnv where
  cached : Bool
  connectResult : CallResult Bool
  canSend : Bool
  sendResult : CallResult Bool
deriving DecidableEq

/-- Result of one embedded `send_message` call: the returned boolean, the
number of `safety.record_message` invocations performed, the store after
the call, and whether a client for the account id is cached afterwards. -/
structure SendResult where
  ok : Bool
  recordCalls : Nat
  store : Store
  cachedAfter : Bool

/-- The tail of `AccountManager.send_message` once a connected client is
at hand: re-check safety; invoke the remote send; on a confirmed send
increment the store counter and call `safety.record_message` once; on a
falsy send result or a raised exception return `False` with no update. -/
def send_after_client (st : Store) (aid : Nat) (env : SendEnv)
    (cachedNow : Bool) : SendResult :=
  if !env.canSend then
    { ok := false, recordCalls := 0, store := st, cachedAfter := cachedNow }
  else
    match env.sendResult with
    | CallResult.exn =>
        { ok := false, recordCalls := 0, store := st, cachedAfter := cachedNow }
    | CallResult.ok success =>
        if success then
          { ok := true, recordCalls := 1, store := incrementDaily st aid,
            cachedAfter := cachedNow }
        else
          { ok := false, recordCalls := 0, store := st,
            cachedAfter := cachedNow }

/-- `AccountManager.send_message`: fetch the cached client or create and
connect a new one (caching it on success); a failed or raising connect
returns `False`.  Then proceed as `send_after_client`.  Every exception
raised inside the body is caught by the blanket handler, which returns
`False`. -/
def send_message (st : Store) (aid : Nat) (env : SendEnv) : SendResult :=
  if env.cached then
    send_after_client st aid env true
  else
    match env.connectResult with
    | CallResult.exn =>
        { ok := false, recordCalls := 0, store := st, cachedAfter := false }
    | CallResult.ok false =>
        { ok := false, recordCalls := 0, store := st, cachedAfter := false }
    | CallResult.ok true => send_after_client st aid env true

/-- A send is confirmed when a connected client was obtained (cached, or
freshly connected with a truthy result), the safety check passed, and the
remote send returned `True` without raising. -/
def sendConfirmed (env : SendEnv) : Bool :=
  (env.cached ||
      (match env.connectResult with
       | CallResult.ok true => true
       | _ => false)) &&
    env.canSend &&
    (match env.sendResult with
     | CallResult.ok true => true
     | _ => false)

/-- Environment of one `AccountManager.add_account` call: whether
`create_account` returned a record, and the outcomes of
`client.connect()` and `client.send_code_request(phone)`. -/
structure EnrollEnv where
  createOk : Bool
  connectResult : CallResult Bool
  codeRequest : CallResult Unit
deriving DecidableEq

/-- Result of one embedded `add_account` call: the returned account id
(if any) and the store after the call. -/
structure EnrollResult where
  account : Option Nat
  store : Store

/-- `AccountManager.add_account`: create the store record inside its own
database context (committed before anything else runs); a falsy create
returns `None`.  Then connect a fresh client and request the
authorization code; a falsy or raising connect, or a raising code
request, returns `None` — the blanket handler only logs, so the created
record stays in the store on every such path. -/
def add_account (st : Store) (newId : Nat) (env : EnrollEnv) : EnrollResult :=
  if !env.createOk then
    { account := none, store := st }
  else
    let st1 := createRecord st newId
    match env.connectResult with
    | CallResult.exn => { account := none, store := st1 }
    | CallResult.ok false => { account := none, store := st1 }
    | CallResult.ok true =>
        match env.codeRequest with
        | CallResult.exn => { account := none, store := st1 }
        | CallResult.ok _ => { account := some newId, store := st1 }

/-- The `queries` attribute of `AccountManager`: `__init__` sets `db`,
`safety` and `_active_clients` but never `queries`, so the attribute is
absent (`none`) on every instance; reading it raises `AttributeError`. -/
def manager_queries : Option Unit :=
  none

/-- Environment of one `AccountManager.authorize_account` call: whether
`get_account_by_phone` finds the record, the outcome of
`client.connect()`, the outcome of `client.authorize(code)` (a session
string, a falsy result, or a raised exception), and the boolean returned
by the store write `update_session`. -/
structure AuthEnv where
  accountExists : Bool
  connectResult : CallResult Bool
  authResult : CallResult (Option String)
  updateOk : Bool
deriving DecidableEq

/-- `AccountManager.authorize_account`: the body first evaluates
`self.queries.get_account_by_phone(phone)`; since `manager_queries` is
absent the attribute access raises `AttributeError`, which the blanket
`except Exception` handler catches, logging and returning `False`.  The
remaining branches embed the rest of the source body (missing record,
failed connect, failed code exchange each return `False`; otherwise the
credential is persisted through `update_session` and its boolean result
returned), but they are unreachable. -/
def authorize_account (st : Store) (aid : Nat) (env : AuthEnv) :
    Bool × Store :=
  match manager_queries with
  | none => (false, st)
  | some _ =>
      if !env.accountExists then (false, st)
      else
        match env.connectResult with
        | CallResult.exn => (false, st)
        | CallResult.ok false => (false, st)
        | CallResult.ok true =>
            match env.authResult with
            | CallResult.exn => (false, st)
            | CallResult.ok none => (false, st)
            | CallResult.ok (some cred) =>
                if env.updateOk then
                  (true,
                    { st with
                      sessions := fun i =>
                        if i = aid then some cred else st.sessions i })
                else (false, st)

/-! ## Combined operation sequences (for the reactivation invariant) -/

/-- One operation of this core acting on shared state: a single health
check, a full sweep, or one orchestrator send.  The administrative
override `update_account_status` is the external reactivation path the
spec excludes, so it is not a core operation. -/
inductive CoreOp where
  | check (aid : Nat) (out : CheckOutcome)
  | sweep (accs : List Nat) (f : Nat → CheckOutcome)
  | send (aid : Nat) (env : SendEnv)

/-- Apply one core operation to the monitor-plus-store state. -/
def applyOp (s : MonitorState) (op : CoreOp) : MonitorState :=
  match op with
  | CoreOp.check aid out => (check_account s aid out).1
  | CoreOp.sweep accs f => (check_all_accounts s accs f).1
  | CoreOp.send aid env =>
      { s with store := (send_message s.store aid env).store }

/-- Run a sequence of core operations. -/
def runOps (s : MonitorState) (ops : List CoreOp) : MonitorState :=
  ops.foldl applyOp s

end SalesBot

namespace SalesBot

/-- C1: `Account.is_available` is true iff the status is `active` and the
daily message count is strictly below the configured daily cap.  It is a
function of the account's fields and the cap alone (a pure Lean function
of its arguments), with no side effect. -/
theorem is_available_iff (cap : Nat) (a : Account) :
    is_available cap a = true ↔
      a.status = AccountStatus.active ∧ a.daily_messages < cap := by
  simp [is_available]

/-- C2: in `AccountManager.send_message`, `safety.record_message` and the
store counter increment are performed exactly once when the remote send
is confirmed, and are performed zero times otherwise — in particular
never when the remote send fails (falsy result or exception) or the
safety check rejects the account. -/
theorem send_message_records_once (st : Store) (aid : Nat) (env : SendEnv) :
    (send_message st aid env).recordCalls =
      (if sendConfirmed env then 1 else 0) ∧
    (send_message st aid env).store.daily aid =
      st.daily aid + (if sendConfirmed env then 1 else 0) := by
  obtain ⟨c, cr, cs, sr⟩ := env
  cases c <;> cases cs <;>
    rcases cr with _ | _ | _ <;> rcases sr with _ | _ | _ <;>
    simp [send_message, send_after_client, sendConfirmed, incrementDaily]

/-- C5: `AccountManager.send_message` is a total boolean function of its
environment: for every outcome of the remote session — a cached or fresh
client, a failed or raising connect, a rejected safety check, a falsy,
truthy or raising remote send — it returns exactly `sendConfirmed env`,
so every failure path (exceptions included, all caught by the blanket
handler) yields `false` and no exception reaches the caller. -/
theorem send_message_total (st : Store) (aid : Nat) (env : SendEnv) :
    (send_message st aid env).ok = sendConfirmed env := by
  obtain ⟨c, cr, cs, sr⟩ := env
  cases c <;> cases cs <;>
    rcases cr with _ | _ | _ <;> rcases sr with _ | _ | _ <;>
    simp [send_message, send_after_client, sendConfirmed]

/-- C10: when `check_account`'s connect returns `False`, or the identity
probe returns a falsy result without raising, the check returns `false`
and the whole monitor state — error counters and stored statuses alike —
is exactly the prior state. -/
theorem check_account_soft_failure_frame (s : MonitorState) (aid : Nat) :
    check_account s aid CheckOutcome.connectFalse = (s, false) ∧
    check_account s aid CheckOutcome.probeNone = (s, false) :=
  ⟨rfl, rfl⟩

/-- C3: a terminal signal during the probe of an account present in the
store (whatever its prior error count) marks the account blocked
immediately, clears its error counter, and makes `check_account` return
`false`. -/
theorem check_account_terminal_blocks (s : MonitorState) (aid : Nat)
    (h : s.store.status aid = some AccountStatus.active) :
    (check_account s aid CheckOutcome.terminal).2 = false ∧
    (check_account s aid CheckOutcome.terminal).1.store.status aid =
      some AccountStatus.blocked ∧
    (check_account s aid CheckOutcome.terminal).1.errCounts aid = 0 := by
  refine ⟨rfl, ?_, ?_⟩ <;>
    simp [check_account, mark_account_blocked, setStatus, popErr, h]

/-- A store in which every account is active with zero counters and no
credential, used as a concrete starting point. -/
def storeAllActive : Store :=
  { status := fun _ => some AccountStatus.active,
    daily := fun _ => 0,
    sessions := fun _ => none }

/-- A monitor over `storeAllActive` whose error counter already stands at
2 for every account. -/
def monitorSuspicious : MonitorState :=
  { store := storeAllActive, errCounts := fun _ => 2 }

/-- Witness for C3: with a prior error count of 2 on account 0, one
terminal signal blocks it, clears the counter and returns `false`. -/
theorem check_account_terminal_blocks_witness :
    (check_account monitorSuspicious 0 CheckOutcome.terminal).2 = false ∧
    (check_account monitorSuspicious 0 CheckOutcome.terminal).1.store.status 0 =
      some AccountStatus.blocked ∧
    (check_account monitorSuspicious 0 CheckOutcome.terminal).1.errCounts 0 = 0 :=
  check_account_terminal_blocks monitorSuspicious 0 rfl

/-- The monitor state after `n` consecutive transient-failure checks of
one account, with no intervening success. -/
def transient_runs (s : MonitorState) (aid : Nat) : Nat → MonitorState
  | 0 => s
  | n + 1 =>
      (check_account (transient_runs s aid n) aid CheckOutcome.transient).1

theorem check_transient_low (s : MonitorState) (aid : Nat)
    (h : s.errCounts aid + 1 < 3) :
    (check_account s aid CheckOutcome.transient).1.store = s.store ∧
    (check_account s aid CheckOutcome.transient).1.errCounts aid =
      s.errCounts aid + 1 ∧
    (check_account s aid CheckOutcome.transient).2 = false := by
  have h3 : ¬ 3 ≤ s.errCounts aid + 1 := by omega
  simp [check_account, h3]

theorem check_transient_third (s : MonitorState) (aid : Nat)
    (h2 : s.errCounts aid = 2)
    (hst : s.store.status aid = some AccountStatus.active) :
    (check_account s aid CheckOutcome.transient).1.store.status aid =
      some AccountStatus.disabled ∧
    (check_account s aid CheckOutcome.transient).1.errCounts aid = 0 ∧
    (check_account s aid CheckOutcome.transient).2 = false := by
  simp [check_account, h2, mark_account_disabled, setStatus, popErr, hst]

/-- C4: starting from an account present and active in the store with a
clear error counter, three consecutive transient (non-terminal,
exception-raising) check failures with no intervening success leave the
account disabled with its error counter cleared; after only one or two
such failures the stored status is still `active` (no transition), and
each of the three checks returns `false`. -/
theorem three_transient_failures_disable (s : MonitorState) (aid : Nat)
    (hst : s.store.status aid = some AccountStatus.active)
    (hcnt : s.errCounts aid = 0) :
    (transient_runs s aid 1).store.status aid = some AccountStatus.active ∧
    (transient_runs s aid 2).store.status aid = some AccountStatus.active ∧
    (transient_runs s aid 3).store.status aid = some AccountStatus.disabled ∧
    (transient_runs s aid 3).errCounts aid = 0 ∧
    (check_account (transient_runs s aid 0) aid CheckOutcome.transient).2 =
      false ∧
    (check_account (transient_runs s aid 1) aid CheckOutcome.transient).2 =
      false ∧
    (check_account (transient_runs s aid 2) aid CheckOutcome.transient).2 =
      false := by
  obtain ⟨st1, cnt1, ret1⟩ := check_transient_low s aid (by omega)
  have e1 : (transient_runs s aid 1).errCounts aid = 1 := by
    show (check_account s aid CheckOutcome.transient).1.errCounts aid = 1
    rw [cnt1, hcnt]
  have f1 : (transient_runs s aid 1).store = s.store := st1
  obtain ⟨st2, cnt2, ret2⟩ :=
    check_transient_low (transient_runs s aid 1) aid (by omega)
  have e2 : (transient_runs s aid 2).errCounts aid = 2 := by
    show (check_account (transient_runs s aid 1) aid
      CheckOutcome.transient).1.errCounts aid = 2
    rw [cnt2, e1]
  have f2 : (transient_runs s aid 2).store = s.store := by
    show (check_account (transient_runs s aid 1) aid
      CheckOutcome.transient).1.store = s.store
    rw [st2, f1]
  have hst2 : (transient_runs s aid 2).store.status aid =
      some AccountStatus.active := by rw [f2]; exact hst
  obtain ⟨d3, c3, ret3⟩ :=
    check_transient_third (transient_runs s aid 2) aid e2 hst2
  refine ⟨?_, ?_, d3, c3, ret1, ret2, ret3⟩
  · rw [show (transient_runs s aid 1).store.status aid =
      s.store.status aid from congrArg (fun t => t.status aid) f1]
    exact hst
  · rw [show (transient_runs s aid 2).store.status aid =
      s.store.status aid from congrArg (fun t => t.status aid) f2]
    exact hst

/-- A monitor over `storeAllActive` with every error counter clear. -/
def monitorFresh : MonitorState :=
  { store := storeAllActive, errCounts := fun _ => 0 }

/-- Witness for C4: on account 0 of the all-active store with a clear
counter, two transient failures leave it active and the third disables
it and clears the counter; each check returns `false`. -/
theorem three_transient_failures_disable_witness :
    (transient_runs monitorFresh 0 1).store.status 0 =
      some AccountStatus.active ∧
    (transient_runs monitorFresh 0 2).store.status 0 =
      some AccountStatus.active ∧
    (transient_runs monitorFresh 0 3).store.status 0 =
      some AccountStatus.disabled ∧
    (transient_runs monitorFresh 0 3).errCounts 0 = 0 ∧
    (check_account (transient_runs monitorFresh 0 0) 0
      CheckOutcome.transient).2 = false ∧
    (check_account (transient_runs monitorFresh 0 1) 0
      CheckOutcome.transient).2 = false ∧
    (check_account (transient_runs monitorFresh 0 2) 0
      CheckOutcome.transient).2 = false :=
  three_transient_failures_disable monitorFresh 0 rfl rfl

theorem sweep_step_tally (f : Nat → CheckOutcome) (p : MonitorState × Stats)
    (aid : Nat) :
    (sweep_step f p aid).2.active + (sweep_step f p aid).2.disabled +
        (sweep_step f p aid).2.blocked =
      p.2.active + p.2.disabled + p.2.blocked + 1 ∧
    (sweep_step f p aid).2.total = p.2.total := by
  by_cases h1 : (check_account p.1 aid (f aid)).2
  · simp [sweep_step, h1]
    omega
  · by_cases h2 : status_reread (check_account p.1 aid (f aid)).1.store aid =
        some AccountStatus.blocked
    · simp [sweep_step, h1, h2]
      omega
    · simp [sweep_step, h1, h2]
      omega

theorem sweep_fold_tally (f : Nat → CheckOutcome) (accs : List Nat)
    (p : MonitorState × Stats) :
    (accs.foldl (sweep_step f) p).2.active +
        (accs.foldl (sweep_step f) p).2.disabled +
        (accs.foldl (sweep_step f) p).2.blocked =
      p.2.active + p.2.disabled + p.2.blocked + accs.length ∧
    (accs.foldl (sweep_step f) p).2.total = p.2.total := by
  induction accs generalizing p with
  | nil => simp
  | cons a t ih =>
      have hstep := sweep_step_tally f p a
      have ht := ih (sweep_step f p a)
      simp only [List.foldl_cons, List.length_cons]
      exact ⟨by omega, ht.2.trans hstep.2⟩

/-- C6: a sweep's tally covers exactly the accounts read at sweep start
(`total` equals their number) and satisfies
`total = active + disabled + blocked`: each account of that read is
counted in exactly one bucket — active when its check succeeded, blocked
when its re-read status is `BLOCKED`, disabled otherwise (this bucket
rule is the `sweep_step` branch the fold applies per account). -/
theorem check_all_accounts_tally (s : MonitorState) (accs : List Nat)
    (f : Nat → CheckOutcome) :
    (check_all_accounts s accs f).2.total =
      (check_all_accounts s accs f).2.active +
        (check_all_accounts s accs f).2.disabled +
        (check_all_accounts s accs f).2.blocked ∧
    (check_all_accounts s accs f).2.total = accs.length := by
  have h := sweep_fold_tally f accs
    (s, { total := accs.length, active := 0, disabled := 0, blocked := 0 })
  unfold check_all_accounts
  refine ⟨?_, h.2⟩
  rw [h.2, h.1]
  simp

/-- The status field can only stay put or move to `disabled`/`blocked`
under this core's operations. -/
def StatusEvolves (a b : Option AccountStatus) : Prop :=
  b = a ∨ b = some AccountStatus.disabled ∨ b = some AccountStatus.blocked

theorem statusEvolves_refl (a : Option AccountStatus) : StatusEvolves a a :=
  Or.inl rfl

theorem statusEvolves_trans {a b c : Option AccountStatus}
    (h1 : StatusEvolves a b) (h2 : StatusEvolves b c) : StatusEvolves a c := by
  rcases h2 with rfl | h2 | h2
  · exact h1
  · exact Or.inr (Or.inl h2)
  · exact Or.inr (Or.inr h2)

theorem check_account_status_evolves (s : MonitorState) (aid : Nat)
    (out : CheckOutcome) (i : Nat) :
    StatusEvolves (s.store.status i)
      ((check_account s aid out).1.store.status i) := by
  cases out with
  | connectFalse => exact statusEvolves_refl _
  | probeNone => exact statusEvolves_refl _
  | success => exact statusEvolves_refl _
  | terminal =>
      show StatusEvolves (s.store.status i)
        ((mark_account_blocked s aid).store.status i)
      unfold mark_account_blocked
      cases h : s.store.status aid with
      | none => exact statusEvolves_refl _
      | some v =>
          by_cases hi : i = aid
          · subst hi
            simp [setStatus, StatusEvolves]
          · simp [setStatus, hi]
            exact statusEvolves_refl _
  | transient =>
      by_cases h3 : 3 ≤ s.errCounts aid + 1
      · show StatusEvolves (s.store.status i)
          ((check_account s aid CheckOutcome.transient).1.store.status i)
        simp only [check_account, if_pos h3]
        unfold mark_account_disabled
        cases h : s.store.status aid with
        | none =>
            simp only [h]
            exact statusEvolves_refl _
        | some v =>
            simp only [h]
            by_cases hi : i = aid
            · subst hi
              simp [setStatus, StatusEvolves]
            · simp [setStatus, hi]
              exact statusEvolves_refl _
      · simp only [check_account, if_neg h3]
        exact statusEvolves_refl _

theorem sweep_step_state (f : Nat → CheckOutcome) (p : MonitorState × Stats)
    (aid : Nat) :
    (sweep_step f p aid).1 = (check_account p.1 aid (f aid)).1 := by
  by_cases hb : (check_account p.1 aid (f aid)).2
  · simp [sweep_step, hb]
  · by_cases hs : status_reread (check_account p.1 aid (f aid)).1.store aid =
        some AccountStatus.blocked
    · simp [sweep_step, hb, hs]
    · simp [sweep_step, hb, hs]

theorem sweep_fold_status_evolves (f : Nat → CheckOutcome) (accs : List Nat)
    (p : MonitorState × Stats) (i : Nat) :
    StatusEvolves (p.1.store.status i)
      ((accs.foldl (sweep_step f) p).1.store.status i) := by
  induction accs generalizing p with
  | nil => exact statusEvolves_refl _
  | cons a t ih =>
      simp only [List.foldl_cons]
      refine statusEvolves_trans ?_ (ih (sweep_step f p a))
      rw [sweep_step_state]
      exact check_account_status_evolves p.1 a (f a) i

theorem send_message_status_frame (st : Store) (aid : Nat) (env : SendEnv) :
    (send_message st aid env).store.status = st.status := by
  obtain ⟨c, cr, cs, sr⟩ := env
  cases c <;> cases cs <;>
    rcases cr with _ | _ | _ <;> rcases sr with _ | _ | _ <;>
    simp [send_message, send_after_client, incrementDaily]

theorem applyOp_status_evolves (s : MonitorState) (op : CoreOp) (i : Nat) :
    StatusEvolves (s.store.status i) ((applyOp s op).store.status i) := by
  cases op with
  | check aid out => exact check_account_status_evolves s aid out i
  | sweep accs f => exact sweep_fold_status_evolves f accs (s, _) i
  | send aid env =>
      show StatusEvolves (s.store.status i)
        ((send_message s.store aid env).store.status i)
      rw [send_message_status_frame]
      exact statusEvolves_refl _

theorem runOps_status_evolves (s : MonitorState) (ops : List CoreOp)
    (i : Nat) :
    StatusEvolves (s.store.status i) ((runOps s ops).store.status i) := by
  induction ops generalizing s with
  | nil => exact statusEvolves_refl _
  | cons op t ih =>
      exact statusEvolves_trans (applyOp_status_evolves s op i)
        (ih (applyOp s op))

/-- C8: no sequence of core operations — single health checks, full
sweeps, orchestrator sends — ever writes `active` into any account's
status: after any run, each account's status is either untouched or one
of `disabled`/`blocked`.  Reactivation is possible only through the
administrative `update_account_status` override, which is not a core
operation. -/
theorem core_never_reactivates (s : MonitorState) (ops : List CoreOp)
    (i : Nat) :
    (runOps s ops).store.status i = s.store.status i ∨
    (runOps s ops).store.status i = some AccountStatus.disabled ∨
    (runOps s ops).store.status i = some AccountStatus.blocked :=
  runOps_status_evolves s ops i

/-- C9: when `AccountManager.add_account` creates the store record and
then returns `None` — because the fresh client's connect returned `False`
or raised, or the authorization-code request raised — the created record
is still in the store exactly as created: no rollback or deletion
accompanies the `None` return. -/
theorem add_account_failure_persists_record (st : Store) (newId : Nat)
    (env : EnrollEnv) (hc : env.createOk = true)
    (hfail : env.connectResult ≠ CallResult.ok true ∨
      env.codeRequest = CallResult.exn) :
    (add_account st newId env).account = none ∧
    (add_account st newId env).store = createRecord st newId := by
  obtain ⟨co, cr, cq⟩ := env
  dsimp only at hc hfail
  subst hc
  rcases cr with _ | b
  · simp [add_account]
  · cases b
    · simp [add_account]
    · rcases hfail with h | h
      · exact absurd rfl h
      · subst h
        simp [add_account]

/-- An enrollment environment in which the record is created but the
fresh client's connect returns `False`. -/
def enrollConnectFailEnv : EnrollEnv :=
  { createOk := true, connectResult := CallResult.ok false,
    codeRequest := CallResult.ok () }

/-- Witness for C9: enrolling account 5 under a failing connect returns
`None` while the created record stays in the store. -/
theorem add_account_failure_persists_record_witness :
    (add_account storeAllActive 5 enrollConnectFailEnv).account = none ∧
    (add_account storeAllActive 5 enrollConnectFailEnv).store =
      createRecord storeAllActive 5 :=
  add_account_failure_persists_record storeAllActive 5 enrollConnectFailEnv
    rfl (Or.inl (by decide))

/-- An authorization environment in which everything the claim needs
goes right: the record exists, the client connects, the code exchange
yields a session string, and the store update reports success. -/
def authSuccessEnv : AuthEnv :=
  { accountExists := true, connectResult := CallResult.ok true,
    authResult := CallResult.ok (some "valid-session"), updateOk := true }

/-- C7 (code bug): `AccountManager.authorize_account` reads
`self.queries`, an attribute `__init__` never sets, so every call —
including one where the account exists, the session connects, the code
is valid and the store update would succeed — raises `AttributeError`
into the blanket handler and returns `false` with the store untouched;
no session credential is ever persisted, contradicting the claimed
success behaviour. -/
theorem authorize_account_never_persists :
    (∀ (st : Store) (aid : Nat) (env : AuthEnv),
      authorize_account st aid env = (false, st)) ∧
    authorize_account storeAllActive 1 authSuccessEnv =
      (false, storeAllActive) :=
  ⟨fun _ _ _ => rfl, rfl⟩

end SalesBot
